import Mathlib

/-!
Shallow embedding of the `rest` Go package (rest.go): a dispatch layer that
maps HTTP methods to up to five operation handlers, gated by a bitmask
permission check.

Modelling choices:
* Go's `type Permission uint` becomes `Nat` (only bitwise or/and are used,
  so no overflow arises).
* `*http.Request` is modelled as a record carrying the method plus an opaque
  context field that authorizers may inspect.
* `http.Handler` values are opaque: the dispatch `Handler` is polymorphic in
  a type `α` of operation handlers, and a nil Go field becomes `none`.
* `ServeHTTP`'s effect on the `http.ResponseWriter` is reified as an
  `Outcome`: a 405 response carrying the Allow header values, a 403
  response, or the forwarding of the request to one concrete handler.
-/

/-- Go: `type Permission uint`, a bitmask over the five operations. -/
abbrev Permission := Nat

/- The permission bit constants from rest.go (`1 << iota` and the derived
unions).  They live in the `Perm` namespace because `List` and `Get` would
otherwise clash with core Lean names. -/
namespace Perm

/-- Go: `List Permission = 1 << iota` (iota = 0). -/
def List : Permission := 1 <<< 0

/-- Go: `Post` (iota = 1). -/
def Post : Permission := 1 <<< 1

/-- Go: `Get` (iota = 2). -/
def Get : Permission := 1 <<< 2

/-- Go: `Put` (iota = 3). -/
def Put : Permission := 1 <<< 3

/-- Go: `Del` (iota = 4). -/
def Del : Permission := 1 <<< 4

/-- Go: `Read = List | Get`. -/
def Read : Permission := List ||| Get

/-- Go: `Write = Post | Put | Del`. -/
def Write : Permission := Post ||| Put ||| Del

/-- Go: `All = Read | Write`. -/
def All : Permission := Read ||| Write

end Perm

/-- The parts of Go's `*http.Request` the package reads: the method string,
plus an opaque context (credentials etc.) that authorizer functions may
inspect. -/
structure Request where
  method : String
  ctx : Nat
deriving DecidableEq

/-- Go: `func Everyone(p Permission) func(r *http.Request) Permission`. -/
def Everyone (p : Permission) : Request → Permission :=
  fun _ => p

/-- Go: `func Any(f ...func(r *http.Request) Permission) ...` — the variadic
argument list becomes a `List`; the loop `p |= v(r)` starting from
`var p Permission` (zero) becomes a left fold. -/
def Any (f : List (Request → Permission)) : Request → Permission :=
  fun r => f.foldl (fun p v => p ||| v r) 0

instance : Std.Commutative (fun (a b : Permission) => a ||| b) :=
  ⟨Nat.lor_comm⟩

instance : Std.Associative (fun (a b : Permission) => a ||| b) :=
  ⟨Nat.lor_assoc⟩

/-- Go: `type Handler struct` — one optional authorizer and five optional
operation-handler slots (a nil Go field is `none`). -/
structure Handler (α : Type) where
  auth : Option (Request → Permission)
  list : Option α
  post : Option α
  get : Option α
  put : Option α
  del : Option α

/-- The observable effect of `ServeHTTP` on the response writer:
a 405 reply carrying the Allow header values, a 403 reply, or the request
being forwarded to one concrete operation handler. -/
inductive Outcome (α : Type) where
  | methodNotAllowed (allow : List String)
  | forbidden
  | ok (hnd : α)
deriving DecidableEq

/-- Go: `http.StatusMethodNotAllowed`. -/
def statusMethodNotAllowed : Nat := 405

/-- Go: `http.StatusForbidden`. -/
def statusForbidden : Nat := 403

/-- The HTTP status written by the dispatch layer itself; `none` on the
success path, where response writing is delegated to the operation
handler. -/
def Outcome.status {α : Type} : Outcome α → Option Nat
  | .methodNotAllowed _ => some statusMethodNotAllowed
  | .forbidden => some statusForbidden
  | .ok _ => none

/-- Go: `func (h *Handler) handler(method string) (http.Handler, Permission)`. -/
def Handler.handler {α : Type} (h : Handler α) (method : String) :
    Option α × Permission :=
  match method with
  | "GET" =>
    if h.get.isSome then (h.get, Perm.Get) else (h.list, Perm.List)
  | "POST" => (h.post, Perm.Post)
  | "PUT" => (h.put, Perm.Put)
  | "DELETE" => (h.del, Perm.Del)
  | _ => (none, 0)

/-- Go: `func (h *Handler) allowed() []string` — the successive appends of
the source become a chain of lets. -/
def Handler.allowed {α : Type} (h : Handler α) : List String :=
  let v : List String := []
  let v := if h.list.isSome || h.get.isSome then v ++ ["GET"] else v
  let v := if h.post.isSome then v ++ ["POST"] else v
  let v := if h.put.isSome then v ++ ["PUT"] else v
  let v := if h.del.isSome then v ++ ["DELETE"] else v
  v

/-- Go: `got := Read; if h.Auth != nil { got = h.Auth(r) }` — the granted
permission computed by `ServeHTTP`. -/
def Handler.granted {α : Type} (h : Handler α) (r : Request) : Permission :=
  match h.auth with
  | none => Perm.Read
  | some a => a r

/-- Go: `func (h *Handler) ServeHTTP(w http.ResponseWriter, r *http.Request)`. -/
def Handler.serveHTTP {α : Type} (h : Handler α) (r : Request) : Outcome α :=
  match h.handler r.method with
  | (none, _) => .methodNotAllowed h.allowed
  | (some hnd, want) =>
    let got := h.granted r
    if want &&& got ≠ want then .forbidden else .ok hnd

/-- C9: the permission constants List, Post, Get, Put, Del are five
pairwise-distinct single-bit values (bits 0 through 4), and the composites
are exactly Read = List or Get, Write = Post or Put or Del,
All = Read or Write. -/
theorem c9_permission_constants :
    (Perm.List = 2 ^ 0 ∧ Perm.Post = 2 ^ 1 ∧ Perm.Get = 2 ^ 2 ∧
      Perm.Put = 2 ^ 3 ∧ Perm.Del = 2 ^ 4) ∧
    (Perm.List ≠ Perm.Post ∧ Perm.List ≠ Perm.Get ∧ Perm.List ≠ Perm.Put ∧
      Perm.List ≠ Perm.Del ∧ Perm.Post ≠ Perm.Get ∧ Perm.Post ≠ Perm.Put ∧
      Perm.Post ≠ Perm.Del ∧ Perm.Get ≠ Perm.Put ∧ Perm.Get ≠ Perm.Del ∧
      Perm.Put ≠ Perm.Del) ∧
    Perm.Read = Perm.List ||| Perm.Get ∧
    Perm.Write = Perm.Post ||| Perm.Put ||| Perm.Del ∧
    Perm.All = Perm.Read ||| Perm.Write := by
  decide

/-- C4: a GET request resolves to the Get handler whenever the Get slot is
non-nil, and only with a nil Get slot does it fall through to the List slot;
with Get present the required permission is the Get bit. -/
theorem c4_get_precedence (α : Type) (h : Handler α) :
    (∀ g : α, h.get = some g → h.handler ("GET") = (some g, Perm.Get)) ∧
    (h.get = none → h.handler ("GET") = (h.list, Perm.List)) := by
  constructor
  · intro g hg
    simp [Handler.handler, hg]
  · intro hg
    simp [Handler.handler, hg]

/-- C4 witness: with both List and Get slots present, GET selects the Get
slot and requires the Get bit. -/
theorem c4_get_precedence_witness :
    (Handler.mk none (some 1) none (some 2) none none : Handler Nat).handler ("GET") =
      (some 2, Perm.Get) :=
  (c4_get_precedence Nat (Handler.mk none (some 1) none (some 2) none none)).1 2 rfl

/-- C5 counterexample: with a nil Get slot and a List handler present, the
required permission computed for a GET request is the List bit, which is not
the Get bit — refuting the claim that required = Get on the fallback path. -/
theorem c5_fallback_counterexample :
    ((Handler.mk none (some 0) none none none none : Handler Nat).handler ("GET")).2 =
      Perm.List ∧ Perm.List ≠ Perm.Get := by
  constructor
  · rfl
  · decide

/-- C5 amended: for every Handler whose Get slot is nil and whose List slot
is non-nil, dispatching a GET request uses the List bit as the required
permission, matching the List handler that would be invoked. -/
theorem c5_fallback_required_list (α : Type) (h : Handler α) (x : α)
    (hg : h.get = none) (hl : h.list = some x) :
    h.handler ("GET") = (some x, Perm.List) := by
  simp [Handler.handler, hg, hl]

/-- C5 amended witness at a concrete handler with only a List slot. -/
theorem c5_fallback_required_list_witness :
    (Handler.mk none (some 3) none none none none : Handler Nat).handler ("GET") =
      (some 3, Perm.List) :=
  c5_fallback_required_list Nat (Handler.mk none (some 3) none none none none) 3 rfl rfl

/-- C6: a Handler with only List and Post slots registered resolves a GET
request to the List handler with required permission the List bit. -/
theorem c6_list_post_get_dispatch (α : Type) (a : Option (Request → Permission))
    (x y : α) :
    (Handler.mk a (some x) (some y) none none none).handler ("GET") =
      (some x, Perm.List) := by
  simp [Handler.handler]

/-- Helper: whenever method resolution yields no handler, `serveHTTP` takes
the 405 branch with the Allow header values from `allowed`. -/
theorem serveHTTP_no_handler {α : Type} (h : Handler α) (r : Request)
    (hn : (h.handler r.method).1 = none) :
    h.serveHTTP r = Outcome.methodNotAllowed h.allowed := by
  unfold Handler.serveHTTP
  cases hres : h.handler r.method with
  | mk o p =>
    rw [hres] at hn
    cases o with
    | none => rfl
    | some x => simp at hn

/-- C1: the access decision on the dispatch path is exactly the subset-of-bits
test `required AND granted == required`; in particular required=Get with
granted=Read allows, required=Put with granted=Read denies, and required=Put
with granted=Write allows. -/
theorem c1_access_decision :
    (∀ (α : Type) (h : Handler α) (r : Request) (hnd : α) (want : Permission),
        h.handler r.method = (some hnd, want) →
        (h.serveHTTP r = Outcome.ok hnd ↔ want &&& h.granted r = want)) ∧
    (Handler.mk (some (Everyone Perm.Read)) none none (some 0) none none :
        Handler Nat).serveHTTP ⟨"GET", 0⟩ = Outcome.ok 0 ∧
    (Handler.mk (some (Everyone Perm.Read)) none none none (some 0) none :
        Handler Nat).serveHTTP ⟨"PUT", 0⟩ = Outcome.forbidden ∧
    (Handler.mk (some (Everyone Perm.Write)) none none none (some 0) none :
        Handler Nat).serveHTTP ⟨"PUT", 0⟩ = Outcome.ok 0 := by
  refine ⟨?_, by decide, by decide, by decide⟩
  intro α h r hnd want hres
  unfold Handler.serveHTTP
  rw [hres]
  by_cases hc : want &&& h.granted r = want
  · simp [hc]
  · simp [hc]

/-- C1 witness: the subset test instantiated on a concrete PUT dispatch. -/
theorem c1_access_decision_witness :
    (Handler.mk (some (Everyone Perm.Write)) none none none (some 5) none :
        Handler Nat).serveHTTP ⟨"PUT", 3⟩ = Outcome.ok 5 ↔
      Perm.Put &&&
          (Handler.mk (some (Everyone Perm.Write)) none none none (some 5) none :
            Handler Nat).granted ⟨"PUT", 3⟩ = Perm.Put :=
  c1_access_decision.1 Nat
    (Handler.mk (some (Everyone Perm.Write)) none none none (some 5) none)
    ⟨"PUT", 3⟩ 5 Perm.Put (by decide)

/-- C2: when no operation handler resolves for the request method, the
response is 405 with the Allow header holding one entry per registered
method — GET iff List or Get is present, then POST, PUT, DELETE — in that
fixed order. -/
theorem c2_method_not_allowed (α : Type) (h : Handler α) (r : Request)
    (hn : (h.handler r.method).1 = none) :
    h.serveHTTP r = Outcome.methodNotAllowed h.allowed ∧
    (h.serveHTTP r).status = some 405 ∧
    h.allowed =
      (if h.list.isSome || h.get.isSome then ["GET"] else []) ++
      (if h.post.isSome then ["POST"] else []) ++
      (if h.put.isSome then ["PUT"] else []) ++
      (if h.del.isSome then ["DELETE"] else []) := by
  have hserve := serveHTTP_no_handler h r hn
  refine ⟨hserve, by rw [hserve]; rfl, ?_⟩
  simp only [Handler.allowed]
  split_ifs <;> simp

/-- C2 witness: a Handler with only List and Post slots answers DELETE with
405 and Allow = [GET, POST]. -/
theorem c2_method_not_allowed_witness :
    (Handler.mk none (some 0) (some 1) none none none : Handler Nat).serveHTTP
        ⟨"DELETE", 7⟩ = Outcome.methodNotAllowed (["GET", "POST"]) :=
  ((c2_method_not_allowed Nat (Handler.mk none (some 0) (some 1) none none none)
      ⟨"DELETE", 7⟩ (by decide)).1).trans (by decide)

/-- C3: with a nil Auth field the granted permission is exactly Read; hence a
PUT request against a nil-Auth Handler with a registered Put slot is refused
with 403 before the Put handler can run. -/
theorem c3_nil_auth_default_read :
    (∀ (α : Type) (h : Handler α) (r : Request),
        h.auth = none → h.granted r = Perm.Read) ∧
    (∀ (α : Type) (h : Handler α) (r : Request) (x : α),
        h.auth = none → h.put = some x → r.method = "PUT" →
        h.serveHTTP r = Outcome.forbidden ∧ (h.serveHTTP r).status = some 403) := by
  constructor
  · intro α h r ha
    simp [Handler.granted, ha]
  · intro α h r x ha hp hm
    have hres : h.handler r.method = (some x, Perm.Put) := by
      rw [hm]
      simp [Handler.handler, hp]
    have hg : h.granted r = Perm.Read := by
      simp [Handler.granted, ha]
    have hserve : h.serveHTTP r = Outcome.forbidden := by
      unfold Handler.serveHTTP
      rw [hres]
      dsimp only
      rw [hg, if_pos (by decide)]
    exact ⟨hserve, by rw [hserve]; rfl⟩

/-- C3 witness: nil Auth plus a Put slot on a concrete PUT request. -/
theorem c3_nil_auth_default_read_witness :
    (Handler.mk none none none none (some 4) none : Handler Nat).serveHTTP
        ⟨"PUT", 2⟩ = Outcome.forbidden :=
  ((c3_nil_auth_default_read.2 Nat (Handler.mk none none none none (some 4) none)
      ⟨"PUT", 2⟩ 4 rfl rfl rfl).1)

/-- C7: when the required permission is not a subset of the granted one,
`ServeHTTP` answers 403 and no operation handler is invoked. -/
theorem c7_forbidden_no_invoke :
    ∀ (α : Type) (h : Handler α) (r : Request) (hnd : α) (want : Permission),
      h.handler r.method = (some hnd, want) →
      want &&& h.granted r ≠ want →
      h.serveHTTP r = Outcome.forbidden ∧
      (h.serveHTTP r).status = some 403 ∧
      ∀ z : α, h.serveHTTP r ≠ Outcome.ok z := by
  intro α h r hnd want hres hc
  have hserve : h.serveHTTP r = Outcome.forbidden := by
    unfold Handler.serveHTTP
    rw [hres]
    dsimp only
    rw [if_pos hc]
  exact ⟨hserve, by rw [hserve]; rfl, by intro z; rw [hserve]; simp⟩

/-- C7 witness: a read-only caller sending PUT to a Handler with a Put slot. -/
theorem c7_forbidden_no_invoke_witness :
    (Handler.mk (some (Everyone Perm.Read)) none none none (some 9) none :
        Handler Nat).serveHTTP ⟨"PUT", 1⟩ = Outcome.forbidden :=
  (c7_forbidden_no_invoke Nat
    (Handler.mk (some (Everyone Perm.Read)) none none none (some 9) none)
    ⟨"PUT", 1⟩ 9 Perm.Put (by decide) (by decide)).1

/-- C10: on the method-not-allowed path the outcome is the same for any two
Auth functions — status 405 and the Allow header never depend on the
authorizer, which is not consulted there. -/
theorem c10_auth_independent_405 :
    ∀ (α : Type) (h : Handler α) (a₁ a₂ : Option (Request → Permission))
      (r : Request),
      (h.handler r.method).1 = none →
      (Handler.mk a₁ h.list h.post h.get h.put h.del).serveHTTP r =
        (Handler.mk a₂ h.list h.post h.get h.put h.del).serveHTTP r ∧
      (Handler.mk a₁ h.list h.post h.get h.put h.del).serveHTTP r =
        Outcome.methodNotAllowed h.allowed := by
  intro α h a₁ a₂ r hn
  have hmk : ∀ a : Option (Request → Permission),
      (Handler.mk a h.list h.post h.get h.put h.del).serveHTTP r =
        Outcome.methodNotAllowed h.allowed := by
    intro a
    exact serveHTTP_no_handler (Handler.mk a h.list h.post h.get h.put h.del) r hn
  exact ⟨(hmk a₁).trans (hmk a₂).symm, hmk a₁⟩

/-- C10 witness: two different authorizers give the identical 405 outcome on
a POST to a Handler with only a Get slot. -/
theorem c10_auth_independent_405_witness :
    (Handler.mk (some (Everyone Perm.All)) none none (some 6) none none :
        Handler Nat).serveHTTP ⟨"POST", 8⟩ =
      (Handler.mk none none none (some 6) none none :
        Handler Nat).serveHTTP ⟨"POST", 8⟩ :=
  (c10_auth_independent_405 Nat
    (Handler.mk (some (Everyone Perm.All)) none none (some 6) none none)
    (some (Everyone Perm.All)) none ⟨"POST", 8⟩ (by decide)).1

/-- Helper: the Go accumulation loop of `Any`, started at `p`, computes `p`
or-ed with the right fold of the granted permissions. -/
theorem any_foldl_eq (fs : List (Request → Permission)) (r : Request)
    (p : Permission) :
    fs.foldl (fun q v => q ||| v r) p =
      p ||| (fs.map (fun f => f r)).foldr (fun a b => a ||| b) 0 := by
  induction fs generalizing p with
  | nil => simp
  | cons x xs ih =>
    simp only [List.foldl_cons, List.map_cons, List.foldr_cons]
    rw [ih, Nat.lor_assoc]

/-- C8: `Any` returns the bitwise union of the permissions granted by the
supplied authorizers, is the empty permission for zero authorizers, and is
invariant under reordering of the authorizer list. -/
theorem c8_any_union :
    ∀ (fs : List (Request → Permission)) (r : Request),
      Any fs r = (fs.map (fun f => f r)).foldr (fun a b => a ||| b) 0 ∧
      Any ([] : List (Request → Permission)) r = 0 ∧
      ∀ gs : List (Request → Permission), fs.Perm gs → Any fs r = Any gs r := by
  have hany : ∀ (fs : List (Request → Permission)) (r : Request),
      Any fs r = (fs.map (fun f => f r)).foldr (fun a b => a ||| b) 0 := by
    intro fs r
    unfold Any
    rw [any_foldl_eq, Nat.zero_or]
  intro fs r
  refine ⟨hany fs r, rfl, ?_⟩
  intro gs hperm
  rw [hany fs r, hany gs r]
  apply List.Perm.foldr_eq
  exact hperm.map (fun f => f r)

/-- C8 witness: a List-granting and a Get-granting authorizer commute and
union to Read. -/
theorem c8_any_union_witness :
    Any ([Everyone Perm.List, Everyone Perm.Get]) ⟨"GET", 0⟩ =
      Any ([Everyone Perm.Get, Everyone Perm.List]) ⟨"GET", 0⟩ :=
  (c8_any_union ([Everyone Perm.List, Everyone Perm.Get]) ⟨"GET", 0⟩).2.2
    ([Everyone Perm.Get, Everyone Perm.List])
    (List.Perm.swap (Everyone Perm.Get) (Everyone Perm.List) [])

/-- C6 witness: concrete List-and-Post-only handler dispatching GET. -/
theorem c6_list_post_get_dispatch_witness :
    (Handler.mk none (some 10) (some 11) none none none : Handler Nat).handler
        ("GET") = (some 10, Perm.List) :=
  c6_list_post_get_dispatch Nat none 10 11
